import Mathlib

/-!
Shallow embedding of `ichnaea/models/cell.py`: cell identity key types,
key normalization (`to_cellkey`, `to_cellkey_psc`), the composite-key
matcher (`join_cellkey`), the entity constructors (`Cell.__init__`,
`OCIDCell.__init__`, `CellArea.__init__`, `OCIDCellArea.__init__`,
`CellBlacklist.__init__`) and the `OCIDCell` bounding-box properties.
-/

namespace Ichnaea

/-- Field names that occur as dict keys / attribute names in the source. -/
inductive EField where
  | radio
  | mcc
  | mnc
  | lac
  | cid
  | psc
  | created
  | modified
  | range
  | new_measures
  | total_measures
  | avg_cell_range
  | num_cells
  | changeable
  | count
  | time
  deriving DecidableEq, Repr

/-- The namedtuple `CellKey(radio, mcc, mnc, lac, cid)`. -/
structure CellKey where
  radio : Int
  mcc : Int
  mnc : Int
  lac : Int
  cid : Int
  deriving DecidableEq, Repr

/-- The namedtuple `CellKeyPsc(radio, mcc, mnc, lac, cid, psc)`. -/
structure CellKeyPsc where
  radio : Int
  mcc : Int
  mnc : Int
  lac : Int
  cid : Int
  psc : Int
  deriving DecidableEq, Repr

/-- The namedtuple `CellAreaKey(radio, mcc, mnc, lac)`. -/
structure CellAreaKey where
  radio : Int
  mcc : Int
  mnc : Int
  lac : Int
  deriving DecidableEq, Repr

/-- The Python exception raised on a missing field: subscripting a dict with
a missing key raises `KeyError`, reading a missing attribute raises
`AttributeError`. -/
inductive PyError where
  | keyError (field : EField)
  | attributeError (field : EField)
  deriving DecidableEq, Repr

/-- A source object passed to `to_cellkey` / `to_cellkey_psc`: either a dict
(the `isinstance(obj, dict)` branch) or an arbitrary field-bearing object
(the attribute-access branch). Each carries its fields as a partial map. -/
inductive Source where
  | mapping (get : EField → Option Int)
  | fieldBearing (get : EField → Option Int)

/-- The underlying field table of a source, shape ignored. -/
def Source.get : Source → EField → Option Int
  | .mapping g, f => g f
  | .fieldBearing g, f => g f

/-- Whether the source is the dict shape. -/
def Source.isMapping : Source → Bool
  | .mapping _ => true
  | .fieldBearing _ => false

/-- Dict subscript `g[f]`: raises `KeyError` when the key is missing. -/
def dictGet (g : EField → Option Int) (f : EField) : Except PyError Int :=
  match g f with
  | some v => .ok v
  | none => .error (.keyError f)

/-- Attribute access `g.f`: raises `AttributeError` when absent. -/
def attrGet (g : EField → Option Int) (f : EField) : Except PyError Int :=
  match g f with
  | some v => .ok v
  | none => .error (.attributeError f)

/-- Embedding of `to_cellkey(obj)`: builds a `CellKey` from the five fields
radio, mcc, mnc, lac, cid, via dict subscripts or attribute reads depending
on the source shape, evaluated left to right. -/
def to_cellkey (obj : Source) : Except PyError CellKey :=
  match obj with
  | .mapping g =>
      (dictGet g .radio).bind fun radio =>
      (dictGet g .mcc).bind fun mcc =>
      (dictGet g .mnc).bind fun mnc =>
      (dictGet g .lac).bind fun lac =>
      (dictGet g .cid).bind fun cid =>
      .ok ⟨radio, mcc, mnc, lac, cid⟩
  | .fieldBearing g =>
      (attrGet g .radio).bind fun radio =>
      (attrGet g .mcc).bind fun mcc =>
      (attrGet g .mnc).bind fun mnc =>
      (attrGet g .lac).bind fun lac =>
      (attrGet g .cid).bind fun cid =>
      .ok ⟨radio, mcc, mnc, lac, cid⟩

/-- Embedding of `to_cellkey_psc(obj)`: like `to_cellkey` but also reads
`psc`, producing a `CellKeyPsc`. -/
def to_cellkey_psc (obj : Source) : Except PyError CellKeyPsc :=
  match obj with
  | .mapping g =>
      (dictGet g .radio).bind fun radio =>
      (dictGet g .mcc).bind fun mcc =>
      (dictGet g .mnc).bind fun mnc =>
      (dictGet g .lac).bind fun lac =>
      (dictGet g .cid).bind fun cid =>
      (dictGet g .psc).bind fun psc =>
      .ok ⟨radio, mcc, mnc, lac, cid, psc⟩
  | .fieldBearing g =>
      (attrGet g .radio).bind fun radio =>
      (attrGet g .mcc).bind fun mcc =>
      (attrGet g .mnc).bind fun mnc =>
      (attrGet g .lac).bind fun lac =>
      (attrGet g .cid).bind fun cid =>
      (attrGet g .psc).bind fun psc =>
      .ok ⟨radio, mcc, mnc, lac, cid, psc⟩

/-- The key argument of `join_cellkey`: any of the three namedtuple kinds.
`isinstance(k, CellKeyPsc)` holds exactly for the third; `hasattr(k, 'cid')`
holds for the second and third. -/
inductive AnyKey where
  | area (k : CellAreaKey)
  | cell (k : CellKey)
  | cellPsc (k : CellKeyPsc)
  deriving DecidableEq, Repr

/-- `k.radio` (all three key kinds have it). -/
def AnyKey.radio : AnyKey → Int
  | .area k => k.radio
  | .cell k => k.radio
  | .cellPsc k => k.radio

/-- `k.mcc` (all three key kinds have it). -/
def AnyKey.mcc : AnyKey → Int
  | .area k => k.mcc
  | .cell k => k.mcc
  | .cellPsc k => k.mcc

/-- `k.mnc` (all three key kinds have it). -/
def AnyKey.mnc : AnyKey → Int
  | .area k => k.mnc
  | .cell k => k.mnc
  | .cellPsc k => k.mnc

/-- `k.lac` (all three key kinds have it). -/
def AnyKey.lac : AnyKey → Int
  | .area k => k.lac
  | .cell k => k.lac
  | .cellPsc k => k.lac

/-- `isinstance(k, CellKeyPsc)`. -/
def AnyKey.isCellKeyPsc : AnyKey → Bool
  | .cellPsc _ => true
  | _ => false

/-- `hasattr(k, 'cid')`: the area key lacks `cid`, the other two have it. -/
def AnyKey.hasCid : AnyKey → Bool
  | .area _ => false
  | _ => true

/-- The schema descriptor side of `join_cellkey`: whether the model class
has a non-None `psc` attribute (`getattr(model, 'psc', None) is not None`)
and whether it has a `cid` attribute (`hasattr(model, 'cid')`). All model
classes carry radio, mcc, mnc and lac columns. -/
structure SchemaDescriptor where
  hasPsc : Bool
  hasCid : Bool
  deriving DecidableEq, Repr

/-- One equality criterion `model.field == value` of the returned tuple. -/
structure Condition where
  field : EField
  value : Int
  deriving DecidableEq, Repr

/-- Embedding of `join_cellkey(model, k)`: the tuple of equality criteria,
starting with radio, mcc, mnc, lac, then `psc` when the key is a
`CellKeyPsc` and the model has a psc column, then `cid` when both model and
key have `cid`. -/
def join_cellkey (model : SchemaDescriptor) (k : AnyKey) : List Condition :=
  let criterion : List Condition :=
    [⟨.radio, k.radio⟩, ⟨.mcc, k.mcc⟩, ⟨.mnc, k.mnc⟩, ⟨.lac, k.lac⟩]
  let criterion : List Condition :=
    match k with
    | .cellPsc kp => if model.hasPsc then criterion ++ [⟨.psc, kp.psc⟩] else criterion
    | _ => criterion
  match k with
  | .area _ => criterion
  | .cell kc => if model.hasCid then criterion ++ [⟨.cid, kc.cid⟩] else criterion
  | .cellPsc kp => if model.hasCid then criterion ++ [⟨.cid, kp.cid⟩] else criterion

/-- A Python value as it appears among entity-constructor kwargs: an int, a
datetime (modelled as a tick count), a bool, or None. -/
inductive Value where
  | int (n : Int)
  | timeVal (t : Nat)
  | boolVal (b : Bool)
  | noneVal
  deriving DecidableEq, Repr

/-- Python falsiness (`not v`): 0, False and None are falsy; any nonzero
int, True and any datetime are truthy. -/
def Value.falsy : Value → Bool
  | .int n => n == 0
  | .boolVal b => !b
  | .timeVal _ => false
  | .noneVal => true

/-- The keyword-argument dict `kw` of an entity constructor: each field name
maps to a supplied value or to nothing (`'f' not in kw`). `none` for a field
means the field is absent from the dict. -/
abbrev Kw : Type := EField → Option Value

/-- The kwargs dict of a constructor invoked with no arguments. -/
def emptyKw : Kw := fun _ => none

/-- The dict write `kw['f'] = v`. -/
def Kw.update (kw : Kw) (f : EField) (v : Value) : Kw :=
  fun g => if g = f then some v else kw g

/-- The statement `if 'f' not in kw: kw['f'] = v`. -/
def Kw.setIfAbsent (kw : Kw) (f : EField) (v : Value) : Kw :=
  if kw f = none then kw.update f v else kw

/-- The test `'f' not in kw or not kw['f']` of the lac/cid defaulting. -/
def absentOrFalsy (v : Option Value) : Bool :=
  match v with
  | none => true
  | some x => x.falsy

/-- The statement `if 'f' not in kw or not kw['f']: kw['f'] = v`. -/
def Kw.setIfAbsentOrFalsy (kw : Kw) (f : EField) (v : Value) : Kw :=
  if absentOrFalsy (kw f) then kw.update f v else kw

/-- Embedding of `Cell.__init__`: defaults created/modified to the current
UTC time (the clock is passed in as `now`), lac/cid to 0 when absent or
falsy, and range/new_measures/total_measures to 0 when absent; the final
kwargs dict is handed to the superclass, which stores it as the row. -/
def Cell.init (now : Nat) (kw : Kw) : Kw :=
  ((((((kw.setIfAbsent .created (Value.timeVal now)).setIfAbsent
      .modified (Value.timeVal now)).setIfAbsentOrFalsy
      .lac (Value.int 0)).setIfAbsentOrFalsy
      .cid (Value.int 0)).setIfAbsent
      .range (Value.int 0)).setIfAbsent
      .new_measures (Value.int 0)).setIfAbsent
      .total_measures (Value.int 0)

/-- Embedding of `OCIDCell.__init__`: like `Cell.__init__` but with no
`new_measures` default and with `changeable` defaulting to True. -/
def OCIDCell.init (now : Nat) (kw : Kw) : Kw :=
  ((((((kw.setIfAbsent .created (Value.timeVal now)).setIfAbsent
      .modified (Value.timeVal now)).setIfAbsentOrFalsy
      .lac (Value.int 0)).setIfAbsentOrFalsy
      .cid (Value.int 0)).setIfAbsent
      .range (Value.int 0)).setIfAbsent
      .total_measures (Value.int 0)).setIfAbsent
      .changeable (Value.boolVal true)

/-- Embedding of `CellArea.__init__`: defaults created/modified to now and
range/avg_cell_range/num_cells to 0 when absent. No lac or cid defaulting
appears here. -/
def CellArea.init (now : Nat) (kw : Kw) : Kw :=
  ((((kw.setIfAbsent .created (Value.timeVal now)).setIfAbsent
      .modified (Value.timeVal now)).setIfAbsent
      .range (Value.int 0)).setIfAbsent
      .avg_cell_range (Value.int 0)).setIfAbsent
      .num_cells (Value.int 0)

/-- Embedding of `OCIDCellArea.__init__`: identical defaulting to
`CellArea.__init__`. -/
def OCIDCellArea.init (now : Nat) (kw : Kw) : Kw :=
  ((((kw.setIfAbsent .created (Value.timeVal now)).setIfAbsent
      .modified (Value.timeVal now)).setIfAbsent
      .range (Value.int 0)).setIfAbsent
      .avg_cell_range (Value.int 0)).setIfAbsent
      .num_cells (Value.int 0)

/-- Embedding of `CellBlacklist.__init__`: defaults `time` to now and
`count` to 1 when absent. No lac or cid defaulting appears here. -/
def CellBlacklist.init (now : Nat) (kw : Kw) : Kw :=
  (kw.setIfAbsent .time (Value.timeVal now)).setIfAbsent .count (Value.int 1)

/-- Reading a field other than the one a conditional default targets is
unaffected by it. -/
theorem Kw.setIfAbsent_apply_ne (kw : Kw) (f g : EField) (v : Value) (h : ¬ g = f) :
    kw.setIfAbsent f v g = kw g := by
  unfold Kw.setIfAbsent Kw.update
  split <;> simp [h]

/-- Reading the field a conditional default targets sees the default exactly
when the field was absent. -/
theorem Kw.setIfAbsent_apply_self (kw : Kw) (f : EField) (v : Value) :
    kw.setIfAbsent f v f = if kw f = none then some v else kw f := by
  unfold Kw.setIfAbsent Kw.update
  split <;> simp_all

/-- Reading a field other than the one an absent-or-falsy default targets is
unaffected by it. -/
theorem Kw.setIfAbsentOrFalsy_apply_ne (kw : Kw) (f g : EField) (v : Value) (h : ¬ g = f) :
    kw.setIfAbsentOrFalsy f v g = kw g := by
  unfold Kw.setIfAbsentOrFalsy Kw.update
  split <;> simp [h]

/-- Reading the field an absent-or-falsy default targets sees the default
exactly when the field was absent or falsy. -/
theorem Kw.setIfAbsentOrFalsy_apply_self (kw : Kw) (f : EField) (v : Value) :
    kw.setIfAbsentOrFalsy f v f = if absentOrFalsy (kw f) then some v else kw f := by
  unfold Kw.setIfAbsentOrFalsy Kw.update
  split <;> simp_all

/-- Meters per degree of latitude, the constant approximation named by the
spec (~111,320 m/degree). -/
def METERS_PER_LAT_DEGREE : ℚ := 111320

/-- Modelled from the spec: `ichnaea.geocalc.add_meters_to_latitude` is not
under src/; the spec says the latitude offset uses a constant
meters-per-degree-of-latitude approximation, so the result is
`lat + meters / metersPerDegreeLatitude`. -/
def add_meters_to_latitude (lat meters : ℚ) : ℚ :=
  lat + meters / METERS_PER_LAT_DEGREE

/-- Modelled from the spec: `ichnaea.geocalc.add_meters_to_longitude` is not
under src/; the spec says the longitude offset divides the displacement by
`metersPerDegreeLatitude * cos(lat in radians)`. The cosine of a latitude
given in degrees is passed in as `cosDeg` since the embedding is over ℚ. -/
def add_meters_to_longitude (cosDeg : ℚ → ℚ) (lat lon meters : ℚ) : ℚ :=
  lon + meters / (METERS_PER_LAT_DEGREE * cosDeg lat)

/-- The position-and-radius state of an `OCIDCell` row that the four
bounding-box properties read: `self.lat`, `self.lon`, `self.range`. -/
structure OCIDCellView where
  lat : ℚ
  lon : ℚ
  range : ℚ
  deriving DecidableEq, Repr

/-- Embedding of the `OCIDCell.min_lat` property:
`geocalc.add_meters_to_latitude(self.lat, -self.range)`. -/
def OCIDCellView.min_lat (c : OCIDCellView) : ℚ :=
  add_meters_to_latitude c.lat (-c.range)

/-- Embedding of the `OCIDCell.max_lat` property:
`geocalc.add_meters_to_latitude(self.lat, self.range)`. -/
def OCIDCellView.max_lat (c : OCIDCellView) : ℚ :=
  add_meters_to_latitude c.lat c.range

/-- Embedding of the `OCIDCell.min_lon` property:
`geocalc.add_meters_to_longitude(self.lat, self.lon, -self.range)`. -/
def OCIDCellView.min_lon (cosDeg : ℚ → ℚ) (c : OCIDCellView) : ℚ :=
  add_meters_to_longitude cosDeg c.lat c.lon (-c.range)

/-- Embedding of the `OCIDCell.max_lon` property:
`geocalc.add_meters_to_longitude(self.lat, self.lon, self.range)`. -/
def OCIDCellView.max_lon (cosDeg : ℚ → ℚ) (c : OCIDCellView) : ℚ :=
  add_meters_to_longitude cosDeg c.lat c.lon c.range

/-- A `CellKey` re-exposed as a field-bearing source, for the round-trip
property: each of its five named fields is readable as an attribute. -/
def cellkey_as_source (k : CellKey) : Source :=
  .fieldBearing fun f =>
    match f with
    | .radio => some k.radio
    | .mcc => some k.mcc
    | .mnc => some k.mnc
    | .lac => some k.lac
    | .cid => some k.cid
    | _ => none

/-- A sample field table carrying all six identity fields, used to
instantiate hypotheses of the normalization theorems at a concrete input. -/
def sampleFields : EField → Option Int
  | .radio => some 1
  | .mcc => some 204
  | .mnc => some 10
  | .lac => some 1234
  | .cid => some 5678
  | .psc => some 99
  | _ => none

/-- Claim C2: a source carrying the five required fields — whether a dict or
a field-bearing object — normalizes to the `CellKey` made of exactly those
five field values; both shapes yield the same key, and extra fields such as
`psc` (unconstrained here) are ignored. -/
theorem C2_to_cellkey_extracts_fields (g : EField → Option Int) (r m n l c : Int)
    (hr : g .radio = some r) (hm : g .mcc = some m) (hn : g .mnc = some n)
    (hl : g .lac = some l) (hc : g .cid = some c) :
    to_cellkey (.mapping g) = .ok ⟨r, m, n, l, c⟩ ∧
    to_cellkey (.fieldBearing g) = .ok ⟨r, m, n, l, c⟩ := by
  constructor <;> simp [to_cellkey, dictGet, attrGet, hr, hm, hn, hl, hc, Except.bind]

/-- Claim C2 witness: the theorem applied at the sample source, which also
carries an extra `psc` field that the result ignores. -/
theorem C2_witness :
    to_cellkey (.mapping sampleFields) = .ok ⟨1, 204, 10, 1234, 5678⟩ ∧
    to_cellkey (.fieldBearing sampleFields) = .ok ⟨1, 204, 10, 1234, 5678⟩ :=
  C2_to_cellkey_extracts_fields sampleFields 1 204 10 1234 5678 rfl rfl rfl rfl rfl

/-- Claim C9: a `CellKey` re-exposed as a field-bearing source round-trips
through `to_cellkey` back to the same key. -/
theorem C9_to_cellkey_roundtrip (k : CellKey) :
    to_cellkey (cellkey_as_source k) = .ok k := rfl

/-- Claim C5: for every cosine table and every `OCIDCell` position view, the
bounding box is symmetric about the center: min/max latitude are the center
latitude displaced by ∓range meters under the constant meters-per-degree
approximation, and min/max longitude are the center longitude displaced by
∓range divided by `metersPerDegreeLatitude * cos(lat)`. -/
theorem C5_bounding_box_symmetric (cosDeg : ℚ → ℚ) (c : OCIDCellView) :
    c.min_lat = c.lat - c.range / METERS_PER_LAT_DEGREE ∧
    c.max_lat = c.lat + c.range / METERS_PER_LAT_DEGREE ∧
    OCIDCellView.min_lon cosDeg c = c.lon - c.range / (METERS_PER_LAT_DEGREE * cosDeg c.lat) ∧
    OCIDCellView.max_lon cosDeg c = c.lon + c.range / (METERS_PER_LAT_DEGREE * cosDeg c.lat) := by
  refine ⟨?_, rfl, ?_, rfl⟩ <;>
    simp [OCIDCellView.min_lat, OCIDCellView.min_lon, add_meters_to_latitude,
      add_meters_to_longitude, neg_div, sub_eq_add_neg]

/-- Claim C6: `Cell()` with no arguments stores lac = 0, cid = 0, range = 0,
new_measures = 0, total_measures = 0, and created and modified equal to the
clock reading at invocation. -/
theorem C6_newCell_defaults (now : Nat) :
    Cell.init now emptyKw .lac = some (Value.int 0) ∧
    Cell.init now emptyKw .cid = some (Value.int 0) ∧
    Cell.init now emptyKw .range = some (Value.int 0) ∧
    Cell.init now emptyKw .new_measures = some (Value.int 0) ∧
    Cell.init now emptyKw .total_measures = some (Value.int 0) ∧
    Cell.init now emptyKw .created = some (Value.timeVal now) ∧
    Cell.init now emptyKw .modified = some (Value.timeVal now) :=
  ⟨rfl, rfl, rfl, rfl, rfl, rfl, rfl⟩

/-- Claim C8: `CellBlacklist()` with no arguments stores count = 1 and time
equal to the clock reading at invocation; and whenever count or time is
supplied in the kwargs, the supplied value is preserved unchanged. -/
theorem C8_newCellBlacklist_defaults (now : Nat) (kw : Kw) :
    CellBlacklist.init now emptyKw .count = some (Value.int 1) ∧
    CellBlacklist.init now emptyKw .time = some (Value.timeVal now) ∧
    (kw .count ≠ none → CellBlacklist.init now kw .count = kw .count) ∧
    (kw .time ≠ none → CellBlacklist.init now kw .time = kw .time) := by
  refine ⟨rfl, rfl, ?_, ?_⟩ <;>
    · intro h
      simp [CellBlacklist.init, Kw.setIfAbsent_apply_ne, Kw.setIfAbsent_apply_self, h]

/-- A sample kwargs dict supplying only count = 4 and time = 3. -/
def sampleBlacklistKw : Kw := fun f =>
  match f with
  | .count => some (Value.int 4)
  | .time => some (Value.timeVal 3)
  | _ => none

/-- Claim C8 witness: the theorem applied at clock 7 and a kwargs dict
supplying count = 4 and time = 3, both of which are preserved. -/
theorem C8_witness :
    CellBlacklist.init 7 emptyKw .count = some (Value.int 1) ∧
    CellBlacklist.init 7 emptyKw .time = some (Value.timeVal 7) ∧
    CellBlacklist.init 7 sampleBlacklistKw .count = some (Value.int 4) ∧
    CellBlacklist.init 7 sampleBlacklistKw .time = some (Value.timeVal 3) := by
  have h := C8_newCellBlacklist_defaults 7 sampleBlacklistKw
  exact ⟨h.1, h.2.1, h.2.2.1 (by decide), h.2.2.2 (by decide)⟩

/-- Claim C1: for every schema descriptor and key, the predicate returned by
`join_cellkey` always contains the equalities on radio, mcc, mnc and lac;
contains a psc equality iff the key is a `CellKeyPsc` and the schema has a
psc column; contains a cid equality iff the schema has cid and the key
carries cid; and contains no condition on any other field. The function is
total, so no field-shape mismatch is an error. -/
theorem C1_join_cellkey_conditions (model : SchemaDescriptor) (k : AnyKey) :
    (⟨.radio, k.radio⟩ : Condition) ∈ join_cellkey model k ∧
    (⟨.mcc, k.mcc⟩ : Condition) ∈ join_cellkey model k ∧
    (⟨.mnc, k.mnc⟩ : Condition) ∈ join_cellkey model k ∧
    (⟨.lac, k.lac⟩ : Condition) ∈ join_cellkey model k ∧
    ((∃ v, (⟨.psc, v⟩ : Condition) ∈ join_cellkey model k) ↔
      (k.isCellKeyPsc = true ∧ model.hasPsc = true)) ∧
    ((∃ v, (⟨.cid, v⟩ : Condition) ∈ join_cellkey model k) ↔
      (model.hasCid = true ∧ k.hasCid = true)) ∧
    (∀ c ∈ join_cellkey model k,
      c.field = .radio ∨ c.field = .mcc ∨ c.field = .mnc ∨
      c.field = .lac ∨ c.field = .psc ∨ c.field = .cid) := by
  obtain ⟨hp, hc⟩ := model
  cases k <;> cases hp <;> cases hc <;>
    simp [join_cellkey, AnyKey.radio, AnyKey.mcc, AnyKey.mnc, AnyKey.lac,
      AnyKey.isCellKeyPsc, AnyKey.hasCid, Condition.mk.injEq]

/-- Claim C1 witness: the theorem applied to a full-cell schema and a
psc-flavored key; its no-other-fields clause is instantiated at the psc
condition, whose membership in the predicate is checked by evaluation. -/
theorem C1_witness :
    (⟨EField.psc, (99 : Int)⟩ : Condition).field = .radio ∨
    (⟨EField.psc, (99 : Int)⟩ : Condition).field = .mcc ∨
    (⟨EField.psc, (99 : Int)⟩ : Condition).field = .mnc ∨
    (⟨EField.psc, (99 : Int)⟩ : Condition).field = .lac ∨
    (⟨EField.psc, (99 : Int)⟩ : Condition).field = .psc ∨
    (⟨EField.psc, (99 : Int)⟩ : Condition).field = .cid :=
  (C1_join_cellkey_conditions ⟨true, true⟩
      (.cellPsc ⟨1, 204, 10, 1234, 5678, 99⟩)).2.2.2.2.2.2
    ⟨.psc, 99⟩ (by decide)

/-- Claim C10: the predicate returned by `join_cellkey` has between 4 and 6
conditions, and its fields appear in the fixed order radio, mcc, mnc, lac,
then psc when present, then cid when present — so psc precedes cid whenever
both appear. -/
theorem C10_join_cellkey_order (model : SchemaDescriptor) (k : AnyKey) :
    4 ≤ (join_cellkey model k).length ∧
    (join_cellkey model k).length ≤ 6 ∧
    (join_cellkey model k).map Condition.field =
      [EField.radio, EField.mcc, EField.mnc, EField.lac]
        ++ (if k.isCellKeyPsc && model.hasPsc then [EField.psc] else [])
        ++ (if model.hasCid && k.hasCid then [EField.cid] else []) := by
  obtain ⟨hp, hc⟩ := model
  cases k <;> cases hp <;> cases hc <;>
    simp [join_cellkey, AnyKey.isCellKeyPsc, AnyKey.hasCid]

/-- The five identity fields `to_cellkey` reads. -/
def requiredCellKeyFields : List EField := [.radio, .mcc, .mnc, .lac, .cid]

/-- The six identity fields `to_cellkey_psc` reads. -/
def requiredCellKeyPscFields : List EField := [.radio, .mcc, .mnc, .lac, .cid, .psc]

/-- Whether a raised error is a `KeyError`. -/
def PyError.isKeyError : PyError → Bool
  | .keyError _ => true
  | .attributeError _ => false

/-- Whether a raised error is an `AttributeError`. -/
def PyError.isAttributeError : PyError → Bool
  | .keyError _ => false
  | .attributeError _ => true

/-- A field table missing exactly the `cid` field. -/
def missingCid : EField → Option Int := fun f =>
  match f with
  | .cid => none
  | _ => some 0

/-- Claim C3 counterexample: on the same field table missing only `cid`, the
mapping-shaped source fails with a `KeyError` while the field-bearing source
fails with an `AttributeError`; those two errors are not the same, so the
error raised is not independent of the source shape. -/
theorem C3_counterexample :
    to_cellkey (.mapping missingCid) = .error (.keyError .cid) ∧
    to_cellkey (.fieldBearing missingCid) = .error (.attributeError .cid) ∧
    PyError.keyError EField.cid ≠ PyError.attributeError EField.cid :=
  ⟨rfl, rfl, by decide⟩

set_option maxHeartbeats 2000000 in
/-- Claim C3 as amended: `to_cellkey` (resp. `to_cellkey_psc`) fails iff at
least one of its 5 (resp. 6) required identity fields is absent from the
source; but the error raised depends on the source shape — it is a
`KeyError` exactly when the source is mapping-shaped and an `AttributeError`
exactly when it is field-bearing. -/
theorem C3_amended_missing_field (obj : Source) :
    ((∃ e, to_cellkey obj = .error e) ↔
      ∃ f ∈ requiredCellKeyFields, obj.get f = none) ∧
    ((∃ e, to_cellkey_psc obj = .error e) ↔
      ∃ f ∈ requiredCellKeyPscFields, obj.get f = none) ∧
    (∀ e, to_cellkey obj = .error e →
      e.isKeyError = obj.isMapping ∧ e.isAttributeError = !obj.isMapping) ∧
    (∀ e, to_cellkey_psc obj = .error e →
      e.isKeyError = obj.isMapping ∧ e.isAttributeError = !obj.isMapping) := by
  cases obj with
  | mapping g =>
      rcases hr : g .radio with _ | r <;> rcases hm : g .mcc with _ | m <;>
        rcases hn : g .mnc with _ | n <;> rcases hl : g .lac with _ | l <;>
        rcases hc : g .cid with _ | c <;> rcases hp : g .psc with _ | p <;>
        simp [to_cellkey, to_cellkey_psc, dictGet, Source.get, Source.isMapping,
          requiredCellKeyFields, requiredCellKeyPscFields, Except.bind,
          PyError.isKeyError, PyError.isAttributeError, hr, hm, hn, hl, hc, hp]
  | fieldBearing g =>
      rcases hr : g .radio with _ | r <;> rcases hm : g .mcc with _ | m <;>
        rcases hn : g .mnc with _ | n <;> rcases hl : g .lac with _ | l <;>
        rcases hc : g .cid with _ | c <;> rcases hp : g .psc with _ | p <;>
        simp [to_cellkey, to_cellkey_psc, attrGet, Source.get, Source.isMapping,
          requiredCellKeyFields, requiredCellKeyPscFields, Except.bind,
          PyError.isKeyError, PyError.isAttributeError, hr, hm, hn, hl, hc, hp]

/-- Claim C3 witness: the amended theorem applied to the concrete mapping
source missing `cid`: its failure is a `KeyError`, and the failure implies a
required field is indeed absent. -/
theorem C3_amended_witness :
    PyError.isKeyError (.keyError .cid) = Source.isMapping (.mapping missingCid) ∧
    (∃ f ∈ requiredCellKeyFields, (Source.mapping missingCid).get f = none) :=
  ⟨((C3_amended_missing_field (.mapping missingCid)).2.2.1 (.keyError .cid) rfl).1,
   (C3_amended_missing_field (.mapping missingCid)).1.mp ⟨.keyError .cid, rfl⟩⟩

/-- Claim C4 counterexample: `CellBlacklist` does carry a `lac` field, yet
`CellBlacklist()` invoked with `lac` absent leaves it absent rather than
storing 0 — its constructor applies no lac/cid defaulting. -/
theorem C4_counterexample :
    CellBlacklist.init 0 emptyKw .lac ≠ some (Value.int 0) := by decide

/-- Claim C4 as amended: only the `Cell` and `OCIDCell` constructors set lac
(respectively cid) to 0 when the field is absent or its supplied value is
falsy — there an explicit falsy value and an omitted field both store 0 —
while the `CellArea`, `OCIDCellArea` and `CellBlacklist` constructors apply
no lac/cid defaulting at all and pass those fields through unchanged. -/
theorem C4_amended_lac_cid_defaults (now : Nat) (kw : Kw) :
    Cell.init now kw .lac = (if absentOrFalsy (kw .lac) then some (Value.int 0) else kw .lac) ∧
    Cell.init now kw .cid = (if absentOrFalsy (kw .cid) then some (Value.int 0) else kw .cid) ∧
    OCIDCell.init now kw .lac = (if absentOrFalsy (kw .lac) then some (Value.int 0) else kw .lac) ∧
    OCIDCell.init now kw .cid = (if absentOrFalsy (kw .cid) then some (Value.int 0) else kw .cid) ∧
    CellArea.init now kw .lac = kw .lac ∧
    CellArea.init now kw .cid = kw .cid ∧
    OCIDCellArea.init now kw .lac = kw .lac ∧
    OCIDCellArea.init now kw .cid = kw .cid ∧
    CellBlacklist.init now kw .lac = kw .lac ∧
    CellBlacklist.init now kw .cid = kw .cid := by
  refine ⟨?_, ?_, ?_, ?_, ?_, ?_, ?_, ?_, ?_, ?_⟩ <;>
    simp [Cell.init, OCIDCell.init, CellArea.init, OCIDCellArea.init,
      CellBlacklist.init, Kw.setIfAbsent_apply_ne, Kw.setIfAbsentOrFalsy_apply_ne,
      Kw.setIfAbsent_apply_self, Kw.setIfAbsentOrFalsy_apply_self]

/-- Claim C7: the core's outputs — normalized keys, matcher predicates,
bounding boxes and defaulted entity kwargs (with the clock reading an
explicit input) — are deterministic functions of their inputs: two
invocations on equal inputs yield equal outputs. -/
theorem C7_outputs_deterministic (s₁ s₂ : Source) (m₁ m₂ : SchemaDescriptor)
    (k₁ k₂ : AnyKey) (n₁ n₂ : Nat) (kw₁ kw₂ : Kw) (cosDeg : ℚ → ℚ)
    (c₁ c₂ : OCIDCellView) (hs : s₁ = s₂) (hm : m₁ = m₂) (hk : k₁ = k₂)
    (hn : n₁ = n₂) (hkw : kw₁ = kw₂) (hc : c₁ = c₂) :
    to_cellkey s₁ = to_cellkey s₂ ∧
    to_cellkey_psc s₁ = to_cellkey_psc s₂ ∧
    join_cellkey m₁ k₁ = join_cellkey m₂ k₂ ∧
    Cell.init n₁ kw₁ = Cell.init n₂ kw₂ ∧
    OCIDCell.init n₁ kw₁ = OCIDCell.init n₂ kw₂ ∧
    CellArea.init n₁ kw₁ = CellArea.init n₂ kw₂ ∧
    OCIDCellArea.init n₁ kw₁ = OCIDCellArea.init n₂ kw₂ ∧
    CellBlacklist.init n₁ kw₁ = CellBlacklist.init n₂ kw₂ ∧
    c₁.min_lat = c₂.min_lat ∧ c₁.max_lat = c₂.max_lat ∧
    OCIDCellView.min_lon cosDeg c₁ = OCIDCellView.min_lon cosDeg c₂ ∧
    OCIDCellView.max_lon cosDeg c₁ = OCIDCellView.max_lon cosDeg c₂ := by
  subst hs hm hk hn hkw hc
  exact ⟨rfl, rfl, rfl, rfl, rfl, rfl, rfl, rfl, rfl, rfl, rfl, rfl⟩

/-- Claim C7 witness: determinism instantiated at concrete inputs — the
sample mapping source, a full-cell schema with a plain cell key, clock 7
with the sample blacklist kwargs, and a concrete position view. -/
theorem C7_witness :
    to_cellkey (.mapping sampleFields) = to_cellkey (.mapping sampleFields) ∧
    to_cellkey_psc (.mapping sampleFields) = to_cellkey_psc (.mapping sampleFields) ∧
    join_cellkey ⟨true, true⟩ (.cell ⟨1, 204, 10, 1234, 5678⟩)
      = join_cellkey ⟨true, true⟩ (.cell ⟨1, 204, 10, 1234, 5678⟩) ∧
    Cell.init 7 sampleBlacklistKw = Cell.init 7 sampleBlacklistKw ∧
    OCIDCell.init 7 sampleBlacklistKw = OCIDCell.init 7 sampleBlacklistKw ∧
    CellArea.init 7 sampleBlacklistKw = CellArea.init 7 sampleBlacklistKw ∧
    OCIDCellArea.init 7 sampleBlacklistKw = OCIDCellArea.init 7 sampleBlacklistKw ∧
    CellBlacklist.init 7 sampleBlacklistKw = CellBlacklist.init 7 sampleBlacklistKw ∧
    OCIDCellView.min_lat ⟨37, -122, 1000⟩ = OCIDCellView.min_lat ⟨37, -122, 1000⟩ ∧
    OCIDCellView.max_lat ⟨37, -122, 1000⟩ = OCIDCellView.max_lat ⟨37, -122, 1000⟩ ∧
    OCIDCellView.min_lon (fun _ => 1) ⟨37, -122, 1000⟩
      = OCIDCellView.min_lon (fun _ => 1) ⟨37, -122, 1000⟩ ∧
    OCIDCellView.max_lon (fun _ => 1) ⟨37, -122, 1000⟩
      = OCIDCellView.max_lon (fun _ => 1) ⟨37, -122, 1000⟩ :=
  C7_outputs_deterministic (.mapping sampleFields) (.mapping sampleFields)
    ⟨true, true⟩ ⟨true, true⟩ (.cell ⟨1, 204, 10, 1234, 5678⟩)
    (.cell ⟨1, 204, 10, 1234, 5678⟩) 7 7 sampleBlacklistKw sampleBlacklistKw
    (fun _ => 1) ⟨37, -122, 1000⟩ ⟨37, -122, 1000⟩ rfl rfl rfl rfl rfl rfl

end Ichnaea
